import Mathlib

/-
Shallow embedding of the copy-on-write pointer library
(`cow_ptr.hpp`, `cow_ownership_flag.hpp` and the three flag variants under
`cow_ownership_flags/`), together with proofs about the embedded code.

Modelling conventions:
- Machine state that C++ keeps behind `std::shared_ptr<T>` is made explicit as a
  `Heap`: a list of payload blocks, where a block's address is its index and
  allocation appends at the end.  A `std::shared_ptr<T>` handle is modelled by
  the address of the block it references, with `none` standing for the null
  handle a moved-from `shared_ptr` is left with.
- All executions modelled are single-threaded (sequential).  Under a single
  thread a `std::mutex` lock_guard is a no-op, an atomic load returns the value
  most recently stored, and a compare-exchange behaves like its deterministic
  strong version (a spurious failure of `compare_exchange_weak` is permitted
  but never guaranteed by the C++ standard, so an execution in which no
  spurious failure ever occurs is a legal execution and is the one modelled).
- Loops whose exit is not syntactically guaranteed (the CAS retry loop of
  `set_ownership_status` and the follower spin-wait) are modelled with fuel or
  with an explicit `none` for divergence: a `none` result means the loop can
  run forever in the modelled sequential execution.
- Closures passed to `acquire_ownership_once` are modelled as state
  transformers `σ → σ`; each flag's `acquire_ownership_once` additionally
  reports how many times it invoked the closure, so that exactly-once /
  never-invoked properties can be stated.
-/

namespace CowPtrModel

/-- Heap of payload blocks: the block at address `a` is `blocks[a]`; allocation
appends a block at the end, so existing addresses are never invalidated. -/
structure Heap (α : Type) where
  blocks : List α
  deriving DecidableEq

/-- Allocation (`new T{v}` / `std::make_shared<T>(v)`): append a block, return
the grown heap and the fresh block's address. -/
def Heap.alloc {α : Type} (h : Heap α) (v : α) : Heap α × Nat :=
  (⟨h.blocks ++ [v]⟩, h.blocks.length)

/-- Dereference (`*ptr`): `none` models the undefined behaviour of
dereferencing an address that holds no block. -/
def Heap.get {α : Type} (h : Heap α) (a : Nat) : Option α :=
  h.blocks.get? a

/-- In-place assignment (`*ptr = v`). -/
def Heap.set {α : Type} (h : Heap α) (a : Nat) (v : α) : Heap α :=
  ⟨h.blocks.set a v⟩

/-! ### Ownership status of the atomics-based flag

`cow_ownership_flags/manually_ordered_atomics_flag.hpp` stores
`enum OwnershipStatus : uint_fast8_t { NotOwner, AcquiringOwnership, Owner }`
in a `std::atomic<OwnershipStatusType>`. -/

/-- OwnershipStatus values of `manually_ordered_atomics_flag`. -/
inductive OwnershipStatus where
  | NotOwner
  | AcquiringOwnership
  | Owner
  deriving DecidableEq

/-- to_ownership_status: `return (is_owned ? Owner : NotOwner);`. -/
def to_ownership_status (is_owned : Bool) : OwnershipStatus :=
  if is_owned then OwnershipStatus.Owner else OwnershipStatus.NotOwner

/-- Sequential model of `std::atomic::compare_exchange` on the ownership word:
when the stored value equals `expected` the exchange succeeds and `desired` is
stored; otherwise it fails and the stored value is loaded into `expected`.
Returns (new stored value, new value of `expected`, whether it succeeded). -/
def compare_exchange (stored expected desired : OwnershipStatus) :
    OwnershipStatus × OwnershipStatus × Bool :=
  if stored = expected then (desired, expected, true) else (stored, stored, false)

/-! ### thread_unsafe_flag (`cow_ownership_flags/thread_unsafe_flag.hpp`) -/

/-- thread_unsafe_flag: a plain boolean `m_owned`. -/
structure thread_unsafe_flag where
  m_owned : Bool
  deriving DecidableEq

/-- thread_unsafe_flag(bool initially_owned) : m_owned{initially_owned}. -/
def thread_unsafe_flag.mk_flag (initially_owned : Bool) : thread_unsafe_flag :=
  ⟨initially_owned⟩

/-- thread_unsafe_flag::set_ownership: `m_owned = owned;`. -/
def thread_unsafe_flag.set_ownership (_f : thread_unsafe_flag) (owned : Bool) :
    thread_unsafe_flag :=
  ⟨owned⟩

/-- thread_unsafe_flag::acquire_ownership_once:
`if(!m_owned) { acquire(); m_owned = true; }`.
Returns the updated flag, the state after the closure's effect, and the number
of times the closure was invoked. -/
def thread_unsafe_flag.acquire_ownership_once {σ : Type} (f : thread_unsafe_flag)
    (acquire : σ → σ) (s : σ) : thread_unsafe_flag × σ × Nat :=
  if !f.m_owned then (⟨true⟩, acquire s, 1) else (f, s, 0)

/-! ### mutex_flag (`cow_ownership_flags/mutex_flag.hpp`)

Both members take `std::lock_guard<std::mutex> lock(m_ownership_mutex)` for
their whole body; under a single thread the lock is free and the guarded body
is the same boolean code as `thread_unsafe_flag`. -/

/-- mutex_flag: a boolean `m_owned` guarded by `m_ownership_mutex` (the mutex
itself carries no sequentially observable state). -/
structure mutex_flag where
  m_owned : Bool
  deriving DecidableEq

/-- mutex_flag(bool initially_owned) : m_owned{initially_owned}. -/
def mutex_flag.mk_flag (initially_owned : Bool) : mutex_flag :=
  ⟨initially_owned⟩

/-- mutex_flag::set_ownership: lock, then `m_owned = owned;`. -/
def mutex_flag.set_ownership (_f : mutex_flag) (owned : Bool) : mutex_flag :=
  ⟨owned⟩

/-- mutex_flag::acquire_ownership_once: lock, then
`if(!m_owned) { acquire(); m_owned = true; }`.
Returns the updated flag, the state after the closure's effect, and the number
of times the closure was invoked. -/
def mutex_flag.acquire_ownership_once {σ : Type} (f : mutex_flag)
    (acquire : σ → σ) (s : σ) : mutex_flag × σ × Nat :=
  if !f.m_owned then (⟨true⟩, acquire s, 1) else (f, s, 0)

/-! ### manually_ordered_atomics_flag
(`cow_ownership_flags/manually_ordered_atomics_flag.hpp`) -/

/-- manually_ordered_atomics_flag: `std::atomic<OwnershipStatusType>
m_ownership_status` (memory orders are irrelevant to the sequential model). -/
structure manually_ordered_atomics_flag where
  m_ownership_status : OwnershipStatus
  deriving DecidableEq

/-- manually_ordered_atomics_flag(bool initially_owned) :
m_ownership_status{to_ownership_status(initially_owned)}. -/
def manually_ordered_atomics_flag.mk_flag (initially_owned : Bool) :
    manually_ordered_atomics_flag :=
  ⟨to_ownership_status initially_owned⟩

/-- manually_ordered_atomics_flag::acquire_ownership_once:

  OwnershipStatusType previous_ownership = NotOwner;
  m_ownership_status.compare_exchange_strong(previous_ownership, AcquiringOwnership, ...);
  switch(previous_ownership) {
    case NotOwner: acquisition_routine(); m_ownership_status.store(Owner, ...); break;
    case AcquiringOwnership: while(m_ownership_status.load(...) != Owner); break;
    case Owner: break;
  }

In the sequential model every reload of the spin-wait returns the unchanged
stored value, so the spin exits at once if that value is `Owner` and otherwise
never exits (`none`).  Returns the updated flag, the state after the closure's
effect, and the number of times the closure was invoked. -/
def manually_ordered_atomics_flag.acquire_ownership_once {σ : Type}
    (f : manually_ordered_atomics_flag) (acquisition_routine : σ → σ) (s : σ) :
    Option (manually_ordered_atomics_flag × σ × Nat) :=
  let r := compare_exchange f.m_ownership_status OwnershipStatus.NotOwner
      OwnershipStatus.AcquiringOwnership
  let stored := r.1
  let previous_ownership := r.2.1
  match previous_ownership with
  | OwnershipStatus.NotOwner =>
      some (⟨OwnershipStatus.Owner⟩, acquisition_routine s, 1)
  | OwnershipStatus.AcquiringOwnership =>
      if stored = OwnershipStatus.Owner then some (⟨stored⟩, s, 0) else none
  | OwnershipStatus.Owner =>
      some (⟨stored⟩, s, 0)

/-- Loop body of manually_ordered_atomics_flag::set_ownership_status:

  OwnershipStatusType current_ownership = m_ownership_status.load(...);
  do {
    while(current_ownership == AcquiringOwnership) {
      current_ownership = m_ownership_status.load(...);
    }
  } while(m_ownership_status.compare_exchange_weak(current_ownership, desired_ownership, ...));

Note the do/while condition: the loop body is re-entered while the
compare-exchange SUCCEEDS (compare_exchange returns true on success) and the
loop exits on the first FAILED exchange.  `fuel` bounds the number of do/while
iterations modelled; `none` means the loop was still running when the fuel ran
out (for inputs where every iteration repeats the same configuration, `none`
for every fuel means the loop never exits).  The inner while re-loads the
unchanged stored value, so it exits at once unless that value is
`AcquiringOwnership`, in which case it never exits (`none`). -/
def set_ownership_loop (desired_ownership : OwnershipStatus) :
    Nat → OwnershipStatus → OwnershipStatus → Option OwnershipStatus
  | 0, _, _ => none
  | fuel + 1, stored, current_ownership =>
      if current_ownership = OwnershipStatus.AcquiringOwnership then
        if stored = OwnershipStatus.AcquiringOwnership then none
        else
          let r := compare_exchange stored stored desired_ownership
          if r.2.2 then set_ownership_loop desired_ownership fuel r.1 r.2.1
          else some r.1
      else
        let r := compare_exchange stored current_ownership desired_ownership
        if r.2.2 then set_ownership_loop desired_ownership fuel r.1 r.2.1
        else some r.1

/-- manually_ordered_atomics_flag::set_ownership_status: load the current
status, then run the retry loop above.  The result is the final stored
ownership status (`none`: the loop did not exit within `fuel` iterations). -/
def manually_ordered_atomics_flag.set_ownership_status
    (f : manually_ordered_atomics_flag) (desired_ownership : OwnershipStatus)
    (fuel : Nat) : Option OwnershipStatus :=
  set_ownership_loop desired_ownership fuel f.m_ownership_status f.m_ownership_status

/-- manually_ordered_atomics_flag::set_ownership:
`set_ownership_status(to_ownership_status(owned));`. -/
def manually_ordered_atomics_flag.set_ownership
    (f : manually_ordered_atomics_flag) (owned : Bool) (fuel : Nat) :
    Option OwnershipStatus :=
  f.set_ownership_status (to_ownership_status owned) fuel

/-! ### cow_ownership_flag (`cow_ownership_flag.hpp`)

The flag type used by `cow_ptr.hpp`: a boolean guarded by a mutex, the same
guarded body as `mutex_flag`.  Its `acquire_ownership_once` takes an
`std::function<void()>`; here the closure may itself hit undefined behaviour
(the clone closure of `cow_ptr` dereferences the payload handle), so it is
modelled as a fallible state transformer. -/

/-- cow_ownership_flag: boolean `m_owned` guarded by `m_ownership_mutex`. -/
structure cow_ownership_flag where
  m_owned : Bool
  deriving DecidableEq

/-- cow_ownership_flag::set_ownership: lock, then `m_owned = owned;`. -/
def cow_ownership_flag.set_ownership (_f : cow_ownership_flag) (owned : Bool) :
    cow_ownership_flag :=
  ⟨owned⟩

/-- cow_ownership_flag::acquire_ownership_once: lock, then
`if(!m_owned) { acquire(); m_owned = true; }`; `none` when the closure hit
undefined behaviour. -/
def cow_ownership_flag.acquire_ownership_once {σ : Type} (f : cow_ownership_flag)
    (acquire : σ → Option σ) (s : σ) : Option (cow_ownership_flag × σ) :=
  if !f.m_owned then
    match acquire s with
    | some s2 => some (⟨true⟩, s2)
    | none => none
  else
    some (f, s)

/-! ### cow_ptr (`cow_ptr.hpp`)

`cow_ptr<T>` holds `std::shared_ptr<T> m_payload` and
`cow_ownership_flag m_ownership`.  The payload handle is the address of the
referenced block (`none` = null handle); the flag is its boolean. -/

/-- cow_ptr<T>: the pair (payload handle, ownership flag). -/
structure cow_ptr (α : Type) where
  m_payload : Option Nat
  m_ownership : Bool
  deriving DecidableEq

/-- cow_ptr(T * ptr) : m_payload{ptr}, m_ownership{true} — construct from a
raw pointer (the address of an already-allocated block), acquire ownership. -/
def cow_ptr.from_raw {α : Type} (ptr : Nat) : cow_ptr α :=
  ⟨some ptr, true⟩

/-- cow_ptr(cow_ptr<T> && cptr) : m_payload{cptr.m_payload}, m_ownership{true}.
`cptr` is a named rvalue reference, so the expression `cptr.m_payload` is an
lvalue and the member initializer selects `std::shared_ptr`'s COPY constructor:
the source's handle is read but left unchanged, its reference count merely
increments.  Returns (the new instance, the source as the constructor leaves
it). -/
def cow_ptr.move_construct {α : Type} (cptr : cow_ptr α) : cow_ptr α × cow_ptr α :=
  (⟨cptr.m_payload, true⟩, cptr)

/-- cow_ptr(const cow_ptr<T> & cptr) : m_payload{cptr.m_payload},
m_ownership{false} — copy-construct, DO NOT acquire ownership. -/
def cow_ptr.copy_construct {α : Type} (cptr : cow_ptr α) : cow_ptr α :=
  ⟨cptr.m_payload, false⟩

/-- cow_ptr::read: `return *m_payload;` (`none`: null or dangling handle). -/
def cow_ptr.read {α : Type} (p : cow_ptr α) (h : Heap α) : Option α :=
  match p.m_payload with
  | some a => h.get a
  | none => none

/-- cow_ptr::copy_if_not_owner:

  m_ownership.acquire_ownership_once([this](){
    m_payload = std::make_shared<T>(*m_payload);
  });

The closure clones the current payload block into a fresh one and repoints the
handle; it hits undefined behaviour (`none`) when the handle is null or
dangling. -/
def cow_ptr.copy_if_not_owner {α : Type} (p : cow_ptr α) (h : Heap α) :
    Option (cow_ptr α × Heap α) :=
  match cow_ownership_flag.acquire_ownership_once ⟨p.m_ownership⟩
      (fun st : Option Nat × Heap α =>
        match st.1 with
        | some a =>
            match st.2.get a with
            | some v0 => some (some (st.2.alloc v0).2, (st.2.alloc v0).1)
            | none => none
        | none => none)
      (p.m_payload, h) with
  | some (f2, st2) => some (⟨st2.1, f2.m_owned⟩, st2.2)
  | none => none

/-- cow_ptr::write(const T & value): `copy_if_not_owner(); *m_payload = value;`
(`none`: undefined behaviour along the way). -/
def cow_ptr.write {α : Type} (p : cow_ptr α) (value : α) (h : Heap α) :
    Option (cow_ptr α × Heap α) :=
  match p.copy_if_not_owner h with
  | some (p2, h2) =>
      match p2.m_payload with
      | some a => some (p2, h2.set a value)
      | none => none
  | none => none

/-- cow_ptr::write(T && value): `copy_if_not_owner(); *m_payload = value;`.
The body is written independently from the rvalue overload's source text:
`value` is a named rvalue reference and hence an lvalue, so the assignment
`*m_payload = value` selects T's COPY assignment and the argument object keeps
its value.  The second component is the argument's value once the call
returns. -/
def cow_ptr.write_rvalue {α : Type} (p : cow_ptr α) (value : α) (h : Heap α) :
    Option (cow_ptr α × Heap α) × α :=
  (match p.copy_if_not_owner h with
   | some (p2, h2) =>
       match p2.m_payload with
       | some a => some (p2, h2.set a value)
       | none => none
   | none => none,
   value)

/-- Sequential composition of `write` calls, one per listed value. -/
def cow_ptr.writes {α : Type} (p : cow_ptr α) (h : Heap α) :
    List α → Option (cow_ptr α × Heap α)
  | [] => some (p, h)
  | v :: vs =>
      match p.write v h with
      | some (p2, h2) => p2.writes h2 vs
      | none => none

/-- Validity of a pointer in a heap: its payload handle references a live
block. -/
def cow_ptr.valid_in {α : Type} (p : cow_ptr α) (h : Heap α) : Bool :=
  match p.m_payload with
  | some a => decide (a < h.blocks.length)
  | none => false

/-! ### Sequential traces over a flag

Used to compare the flag variants on one and the same call sequence.  Each
`acquire` step passes a closure whose effect is irrelevant (`id` on `Unit`);
what is observed is the flag's final state and the total number of closure
invocations. -/

/-- One public flag operation of the shared contract. -/
inductive FlagOp where
  | set (owned : Bool)
  | acquire
  deriving DecidableEq

/-- Run a trace against `thread_unsafe_flag`; returns the final flag and the
total number of closure invocations. -/
def thread_unsafe_run : thread_unsafe_flag → List FlagOp → thread_unsafe_flag × Nat
  | f, [] => (f, 0)
  | f, FlagOp.set b :: ops => thread_unsafe_run (f.set_ownership b) ops
  | f, FlagOp.acquire :: ops =>
      let r := f.acquire_ownership_once id ()
      let rest := thread_unsafe_run r.1 ops
      (rest.1, r.2.2 + rest.2)

/-- Run a trace against `mutex_flag`; returns the final flag and the total
number of closure invocations. -/
def mutex_run : mutex_flag → List FlagOp → mutex_flag × Nat
  | f, [] => (f, 0)
  | f, FlagOp.set b :: ops => mutex_run (f.set_ownership b) ops
  | f, FlagOp.acquire :: ops =>
      let r := f.acquire_ownership_once id ()
      let rest := mutex_run r.1 ops
      (rest.1, r.2.2 + rest.2)

/-- Run a trace against `manually_ordered_atomics_flag`, giving each
`set_ownership` call `fuel` loop iterations; `none` when some call in the trace
never returns. -/
def atomics_run (fuel : Nat) :
    manually_ordered_atomics_flag → List FlagOp → Option (manually_ordered_atomics_flag × Nat)
  | f, [] => some (f, 0)
  | f, FlagOp.set b :: ops =>
      match f.set_ownership b fuel with
      | some st2 => atomics_run fuel ⟨st2⟩ ops
      | none => none
  | f, FlagOp.acquire :: ops =>
      match f.acquire_ownership_once id () with
      | some r =>
          match atomics_run fuel r.1 ops with
          | some rest => some (rest.1, r.2.2 + rest.2)
          | none => none
      | none => none

/-! ## Helper lemmas -/

theorem Heap.length_set {α : Type} (h : Heap α) (a : Nat) (v : α) :
    (h.set a v).blocks.length = h.blocks.length := by
  simp [Heap.set]

theorem Heap.get_set_self {α : Type} (h : Heap α) (a : Nat) (v : α)
    (ha : a < h.blocks.length) : (h.set a v).get a = some v := by
  simp [Heap.set, Heap.get, List.get?_eq_getElem?, List.getElem?_set_self, ha]

theorem Heap.get_set_ne {α : Type} (h : Heap α) (a b : Nat) (v : α)
    (hne : a ≠ b) : (h.set a v).get b = h.get b := by
  simp [Heap.set, Heap.get, List.get?_eq_getElem?, List.getElem?_set_ne, hne]

theorem Heap.length_alloc {α : Type} (h : Heap α) (v : α) :
    (h.alloc v).1.blocks.length = h.blocks.length + 1 := by
  simp [Heap.alloc]

theorem Heap.get_alloc_fresh {α : Type} (h : Heap α) (v : α) :
    (h.alloc v).1.get (h.alloc v).2 = some v := by
  simp [Heap.alloc, Heap.get, List.get?_eq_getElem?]

theorem Heap.get_alloc_old {α : Type} (h : Heap α) (v : α) (a : Nat)
    (ha : a < h.blocks.length) : (h.alloc v).1.get a = h.get a := by
  simp [Heap.alloc, Heap.get, List.get?_eq_getElem?, List.getElem?_append, ha]

theorem Heap.get_is_some {α : Type} (h : Heap α) (a : Nat)
    (ha : a < h.blocks.length) : ∃ v, h.get a = some v :=
  ⟨h.blocks.get ⟨a, ha⟩, by
    simp [Heap.get, List.get?_eq_getElem?, List.getElem?_eq_getElem ha]⟩

theorem cow_ptr.valid_in_iff {α : Type} (p : cow_ptr α) (h : Heap α) :
    p.valid_in h = true ↔ ∃ a, p.m_payload = some a ∧ a < h.blocks.length := by
  cases hp : p.m_payload with
  | none => simp [cow_ptr.valid_in, hp]
  | some a => simp [cow_ptr.valid_in, hp]

theorem cow_ptr.copy_if_not_owner_of_owner {α : Type} (p : cow_ptr α) (h : Heap α)
    (hp : p.m_ownership = true) : p.copy_if_not_owner h = some (p, h) := by
  cases p with
  | mk pay own =>
      cases hp
      simp [cow_ptr.copy_if_not_owner, cow_ownership_flag.acquire_ownership_once]

theorem cow_ptr.write_of_owner {α : Type} (p : cow_ptr α) (v : α) (h : Heap α)
    (a : Nat) (hp : p.m_ownership = true) (hpa : p.m_payload = some a) :
    p.write v h = some (p, h.set a v) := by
  simp [cow_ptr.write, cow_ptr.copy_if_not_owner_of_owner p h hp, hpa]

theorem cow_ptr.write_of_not_owner {α : Type} (p : cow_ptr α) (v : α) (h : Heap α)
    (a : Nat) (v0 : α) (hp : p.m_ownership = false) (hpa : p.m_payload = some a)
    (hget : h.get a = some v0) :
    p.write v h
      = some (⟨some h.blocks.length, true⟩, ((h.alloc v0).1).set h.blocks.length v) := by
  cases p with
  | mk pay own =>
      cases hp
      cases hpa
      simp [cow_ptr.write, cow_ptr.copy_if_not_owner,
        cow_ownership_flag.acquire_ownership_once, hget, Heap.alloc]

theorem cow_ptr.writes_of_owner {α : Type} :
    ∀ (vs : List α) (p : cow_ptr α) (h : Heap α) (a : Nat),
      p.m_ownership = true → p.m_payload = some a →
      ∃ h2 : Heap α, p.writes h vs = some (⟨some a, true⟩, h2)
        ∧ h2.blocks.length = h.blocks.length := by
  intro vs
  induction vs with
  | nil =>
      intro p h a hp hpa
      cases p with
      | mk pay own =>
          cases hp
          cases hpa
          exact ⟨h, rfl, rfl⟩
  | cons v vs ih =>
      intro p h a hp hpa
      obtain ⟨h2, hw, hlen⟩ := ih p (h.set a v) a hp hpa
      refine ⟨h2, ?_, ?_⟩
      · simp [cow_ptr.writes, cow_ptr.write_of_owner p v h a hp hpa, hw]
      · rw [hlen, Heap.length_set]

theorem set_ownership_loop_fixed (s : OwnershipStatus)
    (hs : s ≠ OwnershipStatus.AcquiringOwnership) :
    ∀ fuel : Nat, set_ownership_loop s fuel s s = none := by
  intro fuel
  induction fuel with
  | zero => rfl
  | succ n ih => simpa [set_ownership_loop, hs, compare_exchange] using ih

/-! ## Claim theorems -/

/-- C2 (code bug): `set_ownership` does not always terminate on
`manually_ordered_atomics_flag`.  The do/while loop of `set_ownership_status`
re-enters its body while `compare_exchange_weak` SUCCEEDS, so when the flag
already holds the desired status every exchange succeeds and repeats the same
configuration: with the flag constructed owned, `set_ownership(true)` exhausts
any amount of fuel (the loop never exits in an execution without spurious CAS
failures, which the C++ standard permits). -/
theorem C2_set_ownership_nonterminating (fuel : Nat) :
    (manually_ordered_atomics_flag.mk_flag true).set_ownership true fuel = none :=
  set_ownership_loop_fixed OwnershipStatus.Owner (by decide) fuel

/-- C3 counterexample: move-construction from the concrete source (handle to
block 0, owner) does NOT leave the source's payload handle in the moved-from
(null) state: the constructor copy-constructs from the member of a named
rvalue reference, so the source handle is still `some 0`. -/
theorem C3_move_source_not_emptied :
    ¬ (((⟨some 0, true⟩ : cow_ptr Nat).move_construct).2.m_payload = none) := by
  decide

/-- C3 amended: move-construction of a CoW pointer initializes the new
instance's payload handle as a copy of the source's handle — both instances
reference the same block and the source's handle is left intact, not emptied —
while the new instance's flag is freshly initialized to Owner rather than
transferred from the source's flag. -/
theorem C3_move_copies_handle_fresh_owner_flag {α : Type} (p : cow_ptr α) :
    p.move_construct.1.m_payload = p.m_payload
    ∧ p.move_construct.1.m_ownership = true
    ∧ p.move_construct.2 = p :=
  ⟨rfl, rfl, rfl⟩

/-- C4: with P1 constructed from a fresh payload block holding 1 (address 0 in
the one-block heap) and P2 copy-constructed from P1: before any write both
read 1 and their payload handles name the same block; after P2.write(2), P2
holds fresh block 1 in the grown heap, P1 reads 1, P2 reads 2, and the two
instances name distinct blocks. -/
theorem C4_copy_independence :
    (cow_ptr.from_raw 0 : cow_ptr Nat).read ⟨[1]⟩ = some 1
    ∧ (cow_ptr.from_raw 0 : cow_ptr Nat).copy_construct.read ⟨[1]⟩ = some 1
    ∧ (cow_ptr.from_raw 0 : cow_ptr Nat).copy_construct.m_payload
        = (cow_ptr.from_raw 0 : cow_ptr Nat).m_payload
    ∧ (cow_ptr.from_raw 0 : cow_ptr Nat).copy_construct.write 2 ⟨[1]⟩
        = some (⟨some 1, true⟩, ⟨[1, 2]⟩)
    ∧ (cow_ptr.from_raw 0 : cow_ptr Nat).read ⟨[1, 2]⟩ = some 1
    ∧ (⟨some 1, true⟩ : cow_ptr Nat).read ⟨[1, 2]⟩ = some 2
    ∧ (⟨some 1, true⟩ : cow_ptr Nat).m_payload
        ≠ (cow_ptr.from_raw 0 : cow_ptr Nat).m_payload := by
  decide

/-- C5: for every value v and every CoW pointer p — owner or non-owner — whose
payload handle references a live block, p.write(v) immediately followed by
p.read() yields v. -/
theorem C5_write_read_roundtrip {α : Type} (p : cow_ptr α) (v : α) (h : Heap α)
    (hv : p.valid_in h = true) :
    ∃ p2 h2, p.write v h = some (p2, h2) ∧ p2.read h2 = some v := by
  obtain ⟨a, hpa, ha⟩ := (cow_ptr.valid_in_iff p h).mp hv
  cases hown : p.m_ownership with
  | true =>
      refine ⟨p, h.set a v, cow_ptr.write_of_owner p v h a hown hpa, ?_⟩
      simp [cow_ptr.read, hpa, Heap.get_set_self h a v ha]
  | false =>
      obtain ⟨v0, hget⟩ := Heap.get_is_some h a ha
      refine ⟨⟨some h.blocks.length, true⟩, ((h.alloc v0).1).set h.blocks.length v,
        cow_ptr.write_of_not_owner p v h a v0 hown hpa hget, ?_⟩
      simp only [cow_ptr.read]
      exact Heap.get_set_self (h.alloc v0).1 h.blocks.length v
        (by rw [Heap.length_alloc]; omega)

/-- C5 witness: a concrete non-owner pointer over a one-block heap. -/
theorem C5_write_read_roundtrip_witness :
    (⟨some 0, false⟩ : cow_ptr Nat).valid_in ⟨[7]⟩ = true
    ∧ ∃ p2 h2, (⟨some 0, false⟩ : cow_ptr Nat).write 5 ⟨[7]⟩ = some (p2, h2)
        ∧ p2.read h2 = some 5 :=
  ⟨by decide, C5_write_read_roundtrip ⟨some 0, false⟩ 5 ⟨[7]⟩ (by decide)⟩

/-- C6: for a flag constructed with initial_owned = true,
acquire_ownership_once returns without ever invoking its closure (invocation
count 0, closure state untouched), in every flag variant. -/
theorem C6_owner_fast_path {σ : Type} (acq : σ → σ) (s : σ) :
    (thread_unsafe_flag.mk_flag true).acquire_ownership_once acq s = (⟨true⟩, s, 0)
    ∧ (mutex_flag.mk_flag true).acquire_ownership_once acq s = (⟨true⟩, s, 0)
    ∧ (manually_ordered_atomics_flag.mk_flag true).acquire_ownership_once acq s
        = some (⟨OwnershipStatus.Owner⟩, s, 0) :=
  ⟨rfl, rfl, rfl⟩

/-- C7: a pointer that already privately owns its payload (e.g. freshly
constructed from a raw resource) performs zero clones over any number of
sequential writes — the heap never grows and the block identity never changes;
on a copy-constructed (shared) instance only the first write clones (exactly
one allocation), after which the instance owns a block whose identity all
subsequent sequential writes leave unchanged, with no further allocation. -/
theorem C7_write_idempotence {α : Type} (p q : cow_ptr α) (h : Heap α) (a : Nat)
    (v : α) (vs : List α)
    (hp : p.m_ownership = true) (hpa : p.m_payload = some a)
    (hq : q.m_ownership = false) (hqv : q.valid_in h = true) :
    (∃ h2 : Heap α, p.writes h vs = some (⟨some a, true⟩, h2)
        ∧ h2.blocks.length = h.blocks.length)
    ∧ (∃ q2 : cow_ptr α, ∃ h2 : Heap α,
        q.write v h = some (q2, h2)
        ∧ h2.blocks.length = h.blocks.length + 1
        ∧ q2.m_ownership = true
        ∧ ∃ b h3, q2.m_payload = some b
            ∧ q2.writes h2 vs = some (⟨some b, true⟩, h3)
            ∧ h3.blocks.length = h2.blocks.length) := by
  constructor
  · exact cow_ptr.writes_of_owner vs p h a hp hpa
  · obtain ⟨b, hqb, hb⟩ := (cow_ptr.valid_in_iff q h).mp hqv
    obtain ⟨v0, hget⟩ := Heap.get_is_some h b hb
    refine ⟨⟨some h.blocks.length, true⟩, ((h.alloc v0).1).set h.blocks.length v,
      cow_ptr.write_of_not_owner q v h b v0 hq hqb hget, ?_, rfl, ?_⟩
    · rw [Heap.length_set, Heap.length_alloc]
    · obtain ⟨h3, hw3, hlen3⟩ := cow_ptr.writes_of_owner vs
        ⟨some h.blocks.length, true⟩ (((h.alloc v0).1).set h.blocks.length v)
        h.blocks.length rfl rfl
      exact ⟨h.blocks.length, h3, rfl, hw3, hlen3⟩

/-- C7 witness: concrete owner and shared pointers over a one-block heap. -/
theorem C7_write_idempotence_witness :
    (⟨some 0, false⟩ : cow_ptr Nat).valid_in ⟨[7]⟩ = true
    ∧ ∃ h2 : Heap Nat,
        (⟨some 0, true⟩ : cow_ptr Nat).writes ⟨[7]⟩ [4, 5] = some (⟨some 0, true⟩, h2)
        ∧ h2.blocks.length = 1 :=
  ⟨by decide,
    (C7_write_idempotence (⟨some 0, true⟩ : cow_ptr Nat) ⟨some 0, false⟩ ⟨[7]⟩ 0 3
      [4, 5] rfl rfl rfl (by decide)).1⟩

/-- C8: an acquire_ownership_once call on a flag whose state is NotOwner or
Owner returns with the flag in the Owner state (atomics variant), and Owner is
stable on the normal read/write path: a further acquire_ownership_once on an
Owner flag returns Owner with zero closure invocations (atomics and mutex
variants), reads never touch the flag (cow_ptr::read does not mention it), and
any sequence of writes through an owning cow_ptr keeps its flag set — only
set_ownership can leave the Owner state. -/
theorem C8_owner_state_stable {σ α : Type} (s : OwnershipStatus)
    (hs : s = OwnershipStatus.NotOwner ∨ s = OwnershipStatus.Owner)
    (acq acq2 : σ → σ) (st st2 : σ) (b : Bool)
    (p : cow_ptr α) (h : Heap α) (vs : List α) (a : Nat)
    (hp : p.m_ownership = true) (hpa : p.m_payload = some a) :
    (∃ st3 n, (⟨s⟩ : manually_ordered_atomics_flag).acquire_ownership_once acq st
        = some (⟨OwnershipStatus.Owner⟩, st3, n))
    ∧ (⟨OwnershipStatus.Owner⟩ : manually_ordered_atomics_flag).acquire_ownership_once
        acq2 st2 = some (⟨OwnershipStatus.Owner⟩, st2, 0)
    ∧ ((mutex_flag.mk_flag b).acquire_ownership_once acq st).1.m_owned = true
    ∧ (⟨true⟩ : mutex_flag).acquire_ownership_once acq2 st2 = (⟨true⟩, st2, 0)
    ∧ ∃ h2, p.writes h vs = some (⟨some a, true⟩, h2) := by
  refine ⟨?_, rfl, ?_, rfl, ?_⟩
  · rcases hs with hs | hs <;> subst hs
    · exact ⟨acq st, 1, rfl⟩
    · exact ⟨st, 0, rfl⟩
  · cases b <;> rfl
  · obtain ⟨h2, hw, _⟩ := cow_ptr.writes_of_owner vs p h a hp hpa
    exact ⟨h2, hw⟩

/-- C8 witness: the NotOwner-to-Owner case at concrete inputs. -/
theorem C8_owner_state_stable_witness :
    (OwnershipStatus.NotOwner = OwnershipStatus.NotOwner
      ∨ OwnershipStatus.NotOwner = OwnershipStatus.Owner)
    ∧ ∃ st3 n,
        (⟨OwnershipStatus.NotOwner⟩ : manually_ordered_atomics_flag).acquire_ownership_once
          Nat.succ 0 = some (⟨OwnershipStatus.Owner⟩, st3, n) :=
  ⟨Or.inl rfl,
    (C8_owner_state_stable OwnershipStatus.NotOwner (Or.inl rfl) Nat.succ Nat.succ 0 0
      true (⟨some 0, true⟩ : cow_ptr Nat) ⟨[7]⟩ [] 0 rfl rfl).1⟩

/-- C9 (code bug): the flag variants are NOT sequentially equivalent.  On the
trace [set_ownership(true)] from the owned initial state, thread_unsafe_flag
and mutex_flag return with the flag owned and zero closure invocations, while
manually_ordered_atomics_flag never returns: its set_ownership retry loop
re-enters while the CAS succeeds, so no amount of fuel completes the trace. -/
theorem C9_variants_diverge_on_set_ownership :
    thread_unsafe_run (thread_unsafe_flag.mk_flag true) [FlagOp.set true] = (⟨true⟩, 0)
    ∧ mutex_run (mutex_flag.mk_flag true) [FlagOp.set true] = (⟨true⟩, 0)
    ∧ ∀ fuel : Nat,
        atomics_run fuel (manually_ordered_atomics_flag.mk_flag true)
          [FlagOp.set true] = none := by
  refine ⟨rfl, rfl, fun fuel => ?_⟩
  have hloop := set_ownership_loop_fixed OwnershipStatus.Owner (by decide) fuel
  simp [atomics_run, manually_ordered_atomics_flag.set_ownership,
    manually_ordered_atomics_flag.set_ownership_status,
    manually_ordered_atomics_flag.mk_flag, to_ownership_status, hloop]

/-- C10: the rvalue-reference overload write(T &&) is observationally
equivalent to the const-reference overload write(const T &): it produces the
same resulting pointer and heap, and the caller's argument object keeps its
value (the assignment copy-assigns from an lvalue and never moves from it). -/
theorem C10_write_overloads_equivalent {α : Type} (p : cow_ptr α) (v : α)
    (h : Heap α) :
    (p.write_rvalue v h).1 = p.write v h ∧ (p.write_rvalue v h).2 = v :=
  ⟨rfl, rfl⟩

end CowPtrModel
